import Mathlib

/-
Verification of the Throttle rate-limiter service core.

The embedding models the two Redis Lua scripts (token bucket and sliding
window log) and their Python wrapper methods from
`app/algorithms/token_bucket.py`, `app/algorithms/sliding_window.py`,
`app/redis_client.py` and `app/main.py`.

Modelling decisions:
- Lua numbers (doubles) are modelled as exact rationals `ℚ`; sliding-window
  timestamps, which the Python layer passes as integral milliseconds
  (`int(time.time() * 1000)`), are modelled as `ℤ`.
- The per-key Redis state is passed explicitly: a token-bucket hash is an
  `Option TBState` (`none` = key absent), a sliding-window sorted set is the
  list of its member scores (the random member nonce only serves to keep
  same-millisecond entries distinct, so scores suffice).
- `EXPIRE` / TTL bookkeeping is not modelled: no claim depends on key expiry.
- The `string.format("%.3f", ...)` the scripts apply to the fractional
  return values (`reset_in_seconds`, `retry_after`) before the Python wrapper
  parses them back with `float(...)` is modelled by `fmt3`, quantization to
  the nearest thousandth. The model rounds exact-half ties up, while the C
  library rounds the underlying double to nearest-even; no claim below is
  sensitive to the tie rule. Integer return values (`allowed`, `remaining`,
  `requests_used`) are returned unformatted in the source and so also here.
-/

namespace RateLimiter

/-- Model of `string.format("%.3f", x)` followed by the Python `float(...)`
parse: the value is quantized to a multiple of `1/1000`, rounding to the
nearest thousandth (exact-half ties rounded up in this model). -/
def fmt3 (x : ℚ) : ℚ := ((round (1000 * x) : ℤ) : ℚ) / 1000

/-- A token-bucket hash value: fields `tokens` and `last_refill`. -/
structure TBState where
  tokens : ℚ
  lastRefill : ℚ
  deriving DecidableEq, Repr

/-- The four values returned by `TOKEN_BUCKET_LUA_SCRIPT`:
`{allowed, remaining, reset_in_seconds, retry_after}`. -/
structure TBScriptResult where
  allowed : Bool
  remaining : ℤ
  resetInSeconds : ℚ
  retryAfter : ℚ
  deriving DecidableEq, Repr

/-- Lua script `TOKEN_BUCKET_LUA_SCRIPT` (token_bucket.py lines 36-100): refill by
elapsed time capped at `max_tokens`, consume one token when at least one is
available, and report remaining tokens, time to full, and time to one token.
Returns the reply together with the state written back by `HSET`. -/
def tokenBucketScript (maxTokens refillRate now : ℚ) (st : Option TBState) :
    TBScriptResult × TBState :=
  -- Initialize bucket if it doesn't exist
  let tokens0 : ℚ := match st with | none => maxTokens | some s => s.tokens
  let lastRefill0 : ℚ := match st with | none => now | some s => s.lastRefill
  -- Calculate token refill, capped at max
  let timePassed := now - lastRefill0
  let tokensToAdd := timePassed * refillRate
  let tokens1 := min maxTokens (tokens0 + tokensToAdd)
  -- Try to consume a token
  let consumed : Bool := decide ((1 : ℚ) ≤ tokens1)
  let tokens2 := if consumed then tokens1 - 1 else tokens1
  -- Remaining tokens (floor to integer)
  let remaining := Int.floor tokens2
  -- Reset time (when bucket would be full again)
  let tokensNeeded := maxTokens - tokens2
  let resetInSeconds : ℚ :=
    if 0 < tokensNeeded ∧ 0 < refillRate then tokensNeeded / refillRate else 0
  -- retry_after (when at least 1 token would be available)
  let retryAfter : ℚ :=
    if consumed = false ∧ 0 < refillRate then (1 - tokens2) / refillRate else 0
  -- the return formats the two fractional values with "%.3f" (line 99)
  (⟨consumed, remaining, fmt3 resetInSeconds, fmt3 retryAfter⟩, ⟨tokens2, now⟩)

/-- The triple returned by the status scripts and shaped by the Python
`get_status` wrappers: `requests_used`, `remaining`, `reset_in_seconds`. -/
structure StatusResult where
  requestsUsed : ℤ
  remaining : ℤ
  resetInSeconds : ℚ
  deriving DecidableEq, Repr

/-- Lua script `TOKEN_BUCKET_STATUS_LUA_SCRIPT` (token_bucket.py lines 103-142): same
refill computation, no consumption, and crucially no write back to the key.
For an absent key the script replies `{0, max_tokens, "0.000"}`; the Redis
reply conversion turns the number `max_tokens` into an integer, which for the
non-negative integral capacities the wrapper passes is its floor. -/
def tokenBucketStatusScript (maxTokens refillRate now : ℚ) (st : Option TBState) :
    StatusResult :=
  match st with
  | none => ⟨0, Int.floor maxTokens, 0⟩
  | some s =>
    let timePassed := now - s.lastRefill
    let tokens := min maxTokens (s.tokens + timePassed * refillRate)
    let used := Int.floor (maxTokens - tokens)
    let remaining := Int.floor tokens
    let tokensNeeded := maxTokens - tokens
    let resetInSeconds : ℚ :=
      if 0 < tokensNeeded ∧ 0 < refillRate then tokensNeeded / refillRate else 0
    ⟨used, remaining, fmt3 resetInSeconds⟩

/-- Python dataclass `TokenBucketResult` (token_bucket.py lines 24-31). -/
structure TokenBucketResult where
  allowed : Bool
  remaining : ℤ
  resetInSeconds : ℚ
  retryAfter : Option ℚ
  deriving DecidableEq, Repr

namespace TokenBucketLimiter

/-- Method `TokenBucketLimiter.check` (token_bucket.py lines 161-208): computes
`refill_rate = limit / window_seconds`, runs the Lua script, and shapes the
reply (`retry_after` becomes `None` on an allowed call). State-passing model
of the Redis round trip. -/
def check (limit window_seconds : ℕ) (now : ℚ) (st : Option TBState) :
    TokenBucketResult × Option TBState :=
  let refillRate : ℚ := (limit : ℚ) / (window_seconds : ℚ)
  let r := tokenBucketScript (limit : ℚ) refillRate now st
  (⟨r.1.allowed, r.1.remaining, r.1.resetInSeconds,
    if r.1.allowed then none else some r.1.retryAfter⟩, some r.2)

/-- Method `TokenBucketLimiter.get_status` (token_bucket.py lines 210-242): runs the
status script; the script performs no write, so the stored state is returned
unchanged. -/
def get_status (limit window_seconds : ℕ) (now : ℚ) (st : Option TBState) :
    StatusResult × Option TBState :=
  (tokenBucketStatusScript (limit : ℚ) ((limit : ℚ) / (window_seconds : ℚ)) now st, st)

/-- Method `TokenBucketLimiter.reset` (token_bucket.py lines 244-264) via
`RedisClient.delete_key` (redis_client.py lines 140-152): `DEL` the key and
report whether it existed (`result > 0`). -/
def reset (st : Option TBState) : Bool × Option TBState :=
  (st.isSome, none)

end TokenBucketLimiter

/-- A sliding-window sorted set, modelled by the list of its member scores
(millisecond timestamps). Members carry a random nonce purely so that
same-millisecond entries stay distinct, hence one list entry per member. -/
abbrev SWState := List ℤ

/-- Redis call `ZREMRANGEBYSCORE key -inf window_start`: drop every entry with score at
most `windowStart`, keeping entries strictly inside the window. -/
def swPrune (windowStart : ℤ) (st : SWState) : SWState :=
  st.filter (fun e => decide (windowStart < e))

/-- Redis call `ZRANGE key 0 0 WITHSCORES`: the score of the lowest-scored (oldest)
member, when the set is non-empty. -/
def oldestScore : SWState → Option ℤ
  | [] => none
  | e :: rest =>
    some (match oldestScore rest with
          | none => e
          | some m => min e m)

/-- Shared tail of both sliding-window scripts: time in seconds until the
oldest surviving entry leaves the window, floored at 0; `window_seconds` when
the collection is empty. -/
def swResetTime (window_seconds now : ℤ) (st : SWState) : ℚ :=
  match oldestScore st with
  | none => (window_seconds : ℚ)
  | some o => max 0 (((o + window_seconds * 1000 - now : ℤ) : ℚ) / 1000)

/-- The four values returned by `SLIDING_WINDOW_LUA_SCRIPT`. -/
structure SWScriptResult where
  allowed : Bool
  remaining : ℤ
  resetInSeconds : ℚ
  retryAfter : ℚ
  deriving DecidableEq, Repr

/-- Lua script `SLIDING_WINDOW_LUA_SCRIPT` (sliding_window.py lines 39-101): prune
entries older than the window, count, insert the current timestamp only when
the count is strictly below the limit, and report remaining quota plus
retry/reset times computed from the oldest surviving entry. -/
def slidingWindowScript (limit window_seconds now : ℤ) (st : SWState) :
    SWScriptResult × SWState :=
  let windowStart := now - window_seconds * 1000
  -- Remove expired entries, then count
  let st1 := swPrune windowStart st
  let currentCount : ℤ := st1.length
  if currentCount < limit then
    -- Add new request timestamp
    let st2 := st1 ++ [now]
    (⟨true, limit - currentCount - 1, fmt3 (swResetTime window_seconds now st2),
      fmt3 0⟩, st2)
  else
    -- Request denied - calculate when oldest request expires
    let retryAfter : ℚ :=
      match oldestScore st1 with
      | none => 0
      | some o => max 0 (((o + window_seconds * 1000 - now : ℤ) : ℚ) / 1000)
    (⟨false, 0, fmt3 (swResetTime window_seconds now st1), fmt3 retryAfter⟩, st1)

/-- Lua script `SLIDING_WINDOW_STATUS_LUA_SCRIPT` (sliding_window.py lines 104-138):
prunes expired entries (a write to the key), counts, and reports
`max(0, limit - count)` remaining plus the reset time; never inserts. -/
def slidingWindowStatusScript (limit window_seconds now : ℤ) (st : SWState) :
    StatusResult × SWState :=
  let st1 := swPrune (now - window_seconds * 1000) st
  let currentCount : ℤ := st1.length
  (⟨currentCount, max 0 (limit - currentCount),
    fmt3 (swResetTime window_seconds now st1)⟩, st1)

/-- Python dataclass `SlidingWindowResult` (sliding_window.py lines 27-34). -/
structure SlidingWindowResult where
  allowed : Bool
  remaining : ℤ
  resetInSeconds : ℚ
  retryAfter : Option ℚ
  deriving DecidableEq, Repr

namespace SlidingWindowLimiter

/-- Method `SlidingWindowLimiter.check` (sliding_window.py lines 162-208): runs the
Lua script at the integral millisecond timestamp and shapes the reply
(`retry_after` becomes `None` on an allowed call). -/
def check (limit window_seconds : ℕ) (now_ms : ℤ) (st : SWState) :
    SlidingWindowResult × SWState :=
  let r := slidingWindowScript (limit : ℤ) (window_seconds : ℤ) now_ms st
  (⟨r.1.allowed, r.1.remaining, r.1.resetInSeconds,
    if r.1.allowed then none else some r.1.retryAfter⟩, r.2)

/-- Method `SlidingWindowLimiter.get_status` (sliding_window.py lines 210-241). -/
def get_status (limit window_seconds : ℕ) (now_ms : ℤ) (st : SWState) :
    StatusResult × SWState :=
  slidingWindowStatusScript (limit : ℤ) (window_seconds : ℤ) now_ms st

/-- Method `SlidingWindowLimiter.reset` (sliding_window.py lines 243-263) via
`RedisClient.delete_key`: `DEL` returns the number of keys removed, and an
empty sorted set is an absent key. -/
def reset (st : SWState) : Bool × SWState :=
  (!st.isEmpty, [])

end SlidingWindowLimiter

/-
Store-failure model. `RedisClient.execute_lua_script` / `delete_key`
(redis_client.py lines 111-152) either return the operation's value or raise
a `RedisError`; each limiter method wraps its single store call in
`try: ... except Exception as e: logger.error(...); raise`, re-raising the
same exception. A store interaction is therefore modelled as
`Except ε (state)`: on `ok` the Lua script runs on the fetched state, on
`error` the limiter method re-raises that very error and produces no result.
-/

/-- Method `TokenBucketLimiter.check` around a fallible store round trip. -/
def TokenBucketLimiter.checkVia (ε : Type) (limit window_seconds : ℕ) (now : ℚ)
    (store : Except ε (Option TBState)) :
    Except ε (TokenBucketResult × Option TBState) :=
  match store with
  | Except.error e => Except.error e
  | Except.ok st => Except.ok (TokenBucketLimiter.check limit window_seconds now st)

/-- Method `TokenBucketLimiter.get_status` around a fallible store round trip. -/
def TokenBucketLimiter.statusVia (ε : Type) (limit window_seconds : ℕ) (now : ℚ)
    (store : Except ε (Option TBState)) :
    Except ε (StatusResult × Option TBState) :=
  match store with
  | Except.error e => Except.error e
  | Except.ok st => Except.ok (TokenBucketLimiter.get_status limit window_seconds now st)

/-- Method `TokenBucketLimiter.reset` around a fallible store round trip. -/
def TokenBucketLimiter.resetVia (ε : Type) (store : Except ε (Option TBState)) :
    Except ε (Bool × Option TBState) :=
  match store with
  | Except.error e => Except.error e
  | Except.ok st => Except.ok (TokenBucketLimiter.reset st)

/-- Method `SlidingWindowLimiter.check` around a fallible store round trip. -/
def SlidingWindowLimiter.checkVia (ε : Type) (limit window_seconds : ℕ) (now_ms : ℤ)
    (store : Except ε SWState) :
    Except ε (SlidingWindowResult × SWState) :=
  match store with
  | Except.error e => Except.error e
  | Except.ok st => Except.ok (SlidingWindowLimiter.check limit window_seconds now_ms st)

/-- Method `SlidingWindowLimiter.get_status` around a fallible store round trip. -/
def SlidingWindowLimiter.statusVia (ε : Type) (limit window_seconds : ℕ) (now_ms : ℤ)
    (store : Except ε SWState) :
    Except ε (StatusResult × SWState) :=
  match store with
  | Except.error e => Except.error e
  | Except.ok st => Except.ok (SlidingWindowLimiter.get_status limit window_seconds now_ms st)

/-- Method `SlidingWindowLimiter.reset` around a fallible store round trip. -/
def SlidingWindowLimiter.resetVia (ε : Type) (store : Except ε SWState) :
    Except ε (Bool × SWState) :=
  match store with
  | Except.error e => Except.error e
  | Except.ok st => Except.ok (SlidingWindowLimiter.reset st)

/-
The reset endpoint of the request layer (`main.py` lines 329-371).
-/

/-- Enum `app.models.Algorithm`. -/
inductive Algorithm
  | token_bucket
  | sliding_window
  deriving DecidableEq, Repr

/-- Model `RateLimitResetResponse` (models.py lines 111-120): the response body
carries a confirmation message only. -/
structure RateLimitResetResponse where
  message : String
  deriving DecidableEq, Repr

/-- The store state visible to the endpoint: one token-bucket key and one
sliding-window key for the identifier at hand. -/
structure AppState where
  tb : Option TBState
  sw : SWState
  deriving DecidableEq, Repr

/-- Endpoint `reset_rate_limit` (main.py lines 329-371): delete the selected
algorithms' keys, count how many existed, and raise a 404 `HTTPException`
when a specific algorithm was selected but nothing was deleted. The error
value is the HTTP status code. -/
def reset_rate_limit (identifier : String) (algorithm : Option Algorithm)
    (st : AppState) : Except ℕ (RateLimitResetResponse × AppState) :=
  let tbStep :=
    if algorithm = none ∨ algorithm = some Algorithm.token_bucket then
      TokenBucketLimiter.reset st.tb
    else (false, st.tb)
  let swStep :=
    if algorithm = none ∨ algorithm = some Algorithm.sliding_window then
      SlidingWindowLimiter.reset st.sw
    else (false, st.sw)
  let resetCount : ℕ := (if tbStep.1 then 1 else 0) + (if swStep.1 then 1 else 0)
  if resetCount = 0 ∧ algorithm ≠ none then
    Except.error 404
  else
    Except.ok (⟨"Rate limit reset for " ++ identifier⟩, ⟨tbStep.2, swStep.2⟩)

/-
Call-sequence machinery for the invariant and idempotence claims.
-/

/-- Fold a sequence of sliding-window `check` calls, each given as a
`(window_seconds, now_ms)` pair, over the stored sorted set. -/
def swRunChecks (limit : ℕ) (calls : List (ℕ × ℤ)) (st : SWState) : SWState :=
  calls.foldl (fun s c => (SlidingWindowLimiter.check limit c.1 c.2 s).2) st

/-- State after `k` consecutive token-bucket `check` calls, all at the same
timestamp `now`, starting from an absent key. -/
def tbStateAfter (limit window_seconds : ℕ) (now : ℚ) : ℕ → Option TBState
  | 0 => none
  | k + 1 =>
    (TokenBucketLimiter.check limit window_seconds now
      (tbStateAfter limit window_seconds now k)).2

/-- Result of the `k`-th (1-based) token-bucket `check` call in a burst of
calls at one timestamp starting from an absent key. -/
def tbNthResult (limit window_seconds : ℕ) (now : ℚ) (k : ℕ) : TokenBucketResult :=
  (TokenBucketLimiter.check limit window_seconds now
    (tbStateAfter limit window_seconds now (k - 1))).1

/-- One call in a mixed sliding-window sequence for a key: a `check` or a
`status` at a millisecond timestamp (limit and window are fixed per key). -/
inductive SWOp
  | check (now_ms : ℤ)
  | status (now_ms : ℤ)
  deriving DecidableEq, Repr

/-- Timestamp of a sliding-window call. -/
def SWOp.time : SWOp → ℤ
  | SWOp.check t => t
  | SWOp.status t => t

/-- Whether the call is a `check`. -/
def SWOp.isCheck : SWOp → Bool
  | SWOp.check _ => true
  | SWOp.status _ => false

/-- Run a mixed sliding-window call sequence, collecting the results of the
`check` calls (statuses mutate the stored set by pruning but report only). -/
def swRunOps (limit window_seconds : ℕ) (st : SWState) :
    List SWOp → List SlidingWindowResult
  | [] => []
  | SWOp.check t :: rest =>
    let r := SlidingWindowLimiter.check limit window_seconds t st
    r.1 :: swRunOps limit window_seconds r.2 rest
  | SWOp.status t :: rest =>
    swRunOps limit window_seconds
      (SlidingWindowLimiter.get_status limit window_seconds t st).2 rest

/-- One call in a mixed token-bucket sequence. -/
inductive TBOp
  | check (now : ℚ)
  | status (now : ℚ)
  deriving DecidableEq, Repr

/-- Whether the call is a `check`. -/
def TBOp.isCheck : TBOp → Bool
  | TBOp.check _ => true
  | TBOp.status _ => false

/-- Run a mixed token-bucket call sequence, collecting the results of the
`check` calls. -/
def tbRunOps (limit window_seconds : ℕ) (st : Option TBState) :
    List TBOp → List TokenBucketResult
  | [] => []
  | TBOp.check t :: rest =>
    let r := TokenBucketLimiter.check limit window_seconds t st
    r.1 :: tbRunOps limit window_seconds r.2 rest
  | TBOp.status t :: rest =>
    tbRunOps limit window_seconds
      (TokenBucketLimiter.get_status limit window_seconds t st).2 rest

/-
Helper lemmas shared by the claim theorems.
-/

/-- Quantization to thousandths is monotone. -/
theorem fmt3_mono {x y : ℚ} (h : x ≤ y) : fmt3 x ≤ fmt3 y := by
  unfold fmt3
  have hz : round (1000 * x) ≤ round (1000 * y) := by
    rw [round_eq, round_eq]
    exact Int.floor_le_floor (by linarith)
  have hq : ((round (1000 * x) : ℤ) : ℚ) ≤ ((round (1000 * y) : ℤ) : ℚ) := by
    exact_mod_cast hz
  linarith

/-- Quantization to thousandths maps non-negative values to non-negative
values. -/
theorem fmt3_nonneg {x : ℚ} (h : 0 ≤ x) : 0 ≤ fmt3 x := by
  unfold fmt3
  have hz : (0 : ℤ) ≤ round (1000 * x) := by
    rw [round_eq]
    exact Int.le_floor.mpr (by push_cast; linarith)
  have hq : (0 : ℚ) ≤ ((round (1000 * x) : ℤ) : ℚ) := by exact_mod_cast hz
  linarith

/-- Quantization to thousandths is positive on values of at least half a
thousandth. -/
theorem fmt3_pos {x : ℚ} (h : 1 / 2 ≤ 1000 * x) : 0 < fmt3 x := by
  unfold fmt3
  have hz : (1 : ℤ) ≤ round (1000 * x) := by
    rw [round_eq]
    exact Int.le_floor.mpr (by push_cast; linarith)
  have hq : (1 : ℚ) ≤ ((round (1000 * x) : ℤ) : ℚ) := by exact_mod_cast hz
  linarith

/-- An absent bucket behaves exactly like a full bucket refilled at `now`:
the script seeds `tokens = max_tokens, last_refill = now`. -/
theorem tb_check_none_eq (L W : ℕ) (now : ℚ) :
    TokenBucketLimiter.check L W now none =
      TokenBucketLimiter.check L W now (some ⟨(L : ℚ), now⟩) := rfl

/-- State written by a `check` on a bucket whose `last_refill` is the call
time: no refill happens, and one token is consumed exactly when at least one
is available. -/
theorem tb_step_state (L W : ℕ) (now t : ℚ) (ht : t ≤ (L : ℚ)) :
    (TokenBucketLimiter.check L W now (some ⟨t, now⟩)).2 =
      some ⟨if (1 : ℚ) ≤ t then t - 1 else t, now⟩ := by
  by_cases h1 : (1 : ℚ) ≤ t <;>
    simp [TokenBucketLimiter.check, tokenBucketScript, min_eq_right, ht, h1]

/-- Allow decision of a `check` on a bucket whose `last_refill` is the call
time. -/
theorem tb_step_allowed (L W : ℕ) (now t : ℚ) (ht : t ≤ (L : ℚ)) :
    (TokenBucketLimiter.check L W now (some ⟨t, now⟩)).1.allowed =
      decide ((1 : ℚ) ≤ t) := by
  simp [TokenBucketLimiter.check, tokenBucketScript, min_eq_right, ht]

/-- Remaining tokens reported by a `check` on a bucket whose `last_refill` is
the call time. -/
theorem tb_step_remaining (L W : ℕ) (now t : ℚ) (ht : t ≤ (L : ℚ)) :
    (TokenBucketLimiter.check L W now (some ⟨t, now⟩)).1.remaining =
      Int.floor (if (1 : ℚ) ≤ t then t - 1 else t) := by
  by_cases h1 : (1 : ℚ) ≤ t <;>
    simp [TokenBucketLimiter.check, tokenBucketScript, min_eq_right, ht, h1]

/-- First `check` on an absent bucket allows. -/
theorem tb_fresh_allowed (L W : ℕ) (hL : 1 ≤ L) (now : ℚ) :
    (TokenBucketLimiter.check L W now none).1.allowed = true := by
  rw [tb_check_none_eq, tb_step_allowed L W now _ le_rfl]
  simp
  exact_mod_cast hL

/-- First `check` on an absent bucket reports `limit - 1` remaining. -/
theorem tb_fresh_remaining (L W : ℕ) (hL : 1 ≤ L) (now : ℚ) :
    (TokenBucketLimiter.check L W now none).1.remaining = (L : ℤ) - 1 := by
  have h1 : (1 : ℚ) ≤ (L : ℚ) := by exact_mod_cast hL
  rw [tb_check_none_eq, tb_step_remaining L W now _ le_rfl, if_pos h1]
  rw [show ((L : ℚ) - 1) = (((L : ℤ) - 1 : ℤ) : ℚ) by push_cast; ring]
  exact Int.floor_intCast _

/-- First `check` on an empty sliding-window set allows and reports
`limit - 1` remaining. -/
theorem sw_fresh_check (L W : ℕ) (hL : 1 ≤ L) (now_ms : ℤ) :
    (SlidingWindowLimiter.check L W now_ms []).1.allowed = true ∧
    (SlidingWindowLimiter.check L W now_ms []).1.remaining = (L : ℤ) - 1 := by
  have h0 : (0 : ℤ) < (L : ℤ) := by exact_mod_cast hL
  constructor <;>
    simp [SlidingWindowLimiter.check, slidingWindowScript, swPrune, h0]

/-
Claim theorems.
-/

/-- C3: for every identifier with no stored state and every limit `L ≥ 1`
and window `W ≥ 1`, the first `check` call returns `allowed = true` and
`remaining = L - 1`, for both the token-bucket and the sliding-window
algorithm. -/
theorem claim_first_check_fresh (L W : ℕ) (hL : 1 ≤ L) (hW : 1 ≤ W)
    (now : ℚ) (now_ms : ℤ) :
    (TokenBucketLimiter.check L W now none).1.allowed = true ∧
    (TokenBucketLimiter.check L W now none).1.remaining = (L : ℤ) - 1 ∧
    (SlidingWindowLimiter.check L W now_ms []).1.allowed = true ∧
    (SlidingWindowLimiter.check L W now_ms []).1.remaining = (L : ℤ) - 1 :=
  ⟨tb_fresh_allowed L W hL now, tb_fresh_remaining L W hL now,
   (sw_fresh_check L W hL now_ms).1, (sw_fresh_check L W hL now_ms).2⟩

/-- Witness for C3 at `L = 5`, `W = 60`. -/
theorem claim_first_check_fresh_witness :
    1 ≤ 5 ∧ 1 ≤ 60 ∧
    ((TokenBucketLimiter.check 5 60 100 none).1.allowed = true ∧
     (TokenBucketLimiter.check 5 60 100 none).1.remaining = (5 : ℤ) - 1 ∧
     (SlidingWindowLimiter.check 5 60 100000 []).1.allowed = true ∧
     (SlidingWindowLimiter.check 5 60 100000 []).1.remaining = (5 : ℤ) - 1) :=
  ⟨by decide, by decide,
   claim_first_check_fresh 5 60 (by decide) (by decide) 100 100000⟩

/-- C5: for every identifier, limit `L ≥ 1`, window `W ≥ 1` and both
algorithms, a `reset` followed by a `check` produces the same result as a
`check` on a never-seen identifier (`allowed = true`, `remaining = L - 1`),
and `reset` returns whether a key existed. -/
theorem claim_reset_then_check (L W : ℕ) (hL : 1 ≤ L) (hW : 1 ≤ W)
    (now : ℚ) (now_ms : ℤ) (tbSt : Option TBState) (swSt : SWState) :
    (TokenBucketLimiter.reset tbSt).1 = tbSt.isSome ∧
    (SlidingWindowLimiter.reset swSt).1 = !swSt.isEmpty ∧
    TokenBucketLimiter.check L W now (TokenBucketLimiter.reset tbSt).2 =
      TokenBucketLimiter.check L W now none ∧
    SlidingWindowLimiter.check L W now_ms (SlidingWindowLimiter.reset swSt).2 =
      SlidingWindowLimiter.check L W now_ms [] ∧
    (TokenBucketLimiter.check L W now (TokenBucketLimiter.reset tbSt).2).1.allowed
      = true ∧
    (TokenBucketLimiter.check L W now (TokenBucketLimiter.reset tbSt).2).1.remaining
      = (L : ℤ) - 1 ∧
    (SlidingWindowLimiter.check L W now_ms (SlidingWindowLimiter.reset swSt).2).1.allowed
      = true ∧
    (SlidingWindowLimiter.check L W now_ms (SlidingWindowLimiter.reset swSt).2).1.remaining
      = (L : ℤ) - 1 :=
  ⟨rfl, rfl, rfl, rfl,
   tb_fresh_allowed L W hL now, tb_fresh_remaining L W hL now,
   (sw_fresh_check L W hL now_ms).1, (sw_fresh_check L W hL now_ms).2⟩

/-- Witness for C5 at `L = 3`, `W = 10`, with existing state on both keys. -/
theorem claim_reset_then_check_witness :
    1 ≤ 3 ∧ 1 ≤ 10 ∧
    ((TokenBucketLimiter.reset (some ⟨2, 7⟩)).1 = (some (⟨2, 7⟩ : TBState)).isSome ∧
     (SlidingWindowLimiter.reset [5]).1 = !([5] : SWState).isEmpty ∧
     TokenBucketLimiter.check 3 10 9 (TokenBucketLimiter.reset (some ⟨2, 7⟩)).2 =
       TokenBucketLimiter.check 3 10 9 none ∧
     SlidingWindowLimiter.check 3 10 9000 (SlidingWindowLimiter.reset [5]).2 =
       SlidingWindowLimiter.check 3 10 9000 [] ∧
     (TokenBucketLimiter.check 3 10 9 (TokenBucketLimiter.reset (some ⟨2, 7⟩)).2).1.allowed
       = true ∧
     (TokenBucketLimiter.check 3 10 9 (TokenBucketLimiter.reset (some ⟨2, 7⟩)).2).1.remaining
       = (3 : ℤ) - 1 ∧
     (SlidingWindowLimiter.check 3 10 9000 (SlidingWindowLimiter.reset [5]).2).1.allowed
       = true ∧
     (SlidingWindowLimiter.check 3 10 9000 (SlidingWindowLimiter.reset [5]).2).1.remaining
       = (3 : ℤ) - 1) :=
  ⟨by decide, by decide,
   claim_reset_then_check 3 10 (by decide) (by decide) 9 9000 (some ⟨2, 7⟩) [5]⟩

/-- C10: for an identifier with no stored token-bucket state and limit
`L ≥ 1`, window `W ≥ 1`, `get_status` returns `requests_used = 0`,
`remaining = L`, `reset_in_seconds = 0`, and creates no state in the store,
so a subsequent first `check` still sees a fresh bucket. -/
theorem claim_token_bucket_status_fresh (L W : ℕ) (hL : 1 ≤ L) (hW : 1 ≤ W)
    (now now2 : ℚ) :
    (TokenBucketLimiter.get_status L W now none).1 =
      ({ requestsUsed := 0, remaining := (L : ℤ), resetInSeconds := 0 } : StatusResult) ∧
    (TokenBucketLimiter.get_status L W now none).2 = none ∧
    TokenBucketLimiter.check L W now2 ((TokenBucketLimiter.get_status L W now none).2) =
      TokenBucketLimiter.check L W now2 none := by
  refine ⟨?_, rfl, rfl⟩
  simp [TokenBucketLimiter.get_status, tokenBucketStatusScript]

/-- Witness for C10 at `L = 5`, `W = 60`. -/
theorem claim_token_bucket_status_fresh_witness :
    1 ≤ 5 ∧ 1 ≤ 60 ∧
    ((TokenBucketLimiter.get_status 5 60 100 none).1 =
       ({ requestsUsed := 0, remaining := (5 : ℤ), resetInSeconds := 0 } : StatusResult) ∧
     (TokenBucketLimiter.get_status 5 60 100 none).2 = none ∧
     TokenBucketLimiter.check 5 60 200 ((TokenBucketLimiter.get_status 5 60 100 none).2) =
       TokenBucketLimiter.check 5 60 200 none) :=
  ⟨by decide, by decide,
   claim_token_bucket_status_fresh 5 60 (by decide) (by decide) 100 200⟩

/-- C7: for every `check`, `status` or `reset` invocation on either
algorithm, if the underlying store operation fails with an error, the limiter
component re-raises that error unchanged to the caller; the error case
carries no allow or deny result, so a store failure is never coerced into an
implicit allow or deny. -/
theorem claim_store_error_propagates (ε : Type) (e : ε) (L W : ℕ)
    (now : ℚ) (now_ms : ℤ) :
    TokenBucketLimiter.checkVia ε L W now (Except.error e) = Except.error e ∧
    TokenBucketLimiter.statusVia ε L W now (Except.error e) = Except.error e ∧
    TokenBucketLimiter.resetVia ε (Except.error e) = Except.error e ∧
    SlidingWindowLimiter.checkVia ε L W now_ms (Except.error e) = Except.error e ∧
    SlidingWindowLimiter.statusVia ε L W now_ms (Except.error e) = Except.error e ∧
    SlidingWindowLimiter.resetVia ε (Except.error e) = Except.error e :=
  ⟨rfl, rfl, rfl, rfl, rfl, rfl⟩

/-- C8 counterexample: resetting an identifier with no stored state while
selecting a specific algorithm does not succeed — the endpoint raises a 404
`HTTPException` — refuting the claim that the reset operation succeeds
without error for every algorithm selector. -/
theorem claim_reset_endpoint_counterexample :
    reset_rate_limit "ghost" (some Algorithm.token_bucket)
      ({ tb := none, sw := [] } : AppState) = Except.error 404 := rfl

/-- C8 amended: for an identifier with no stored state, the reset endpoint
succeeds only when the selector is "all" (no algorithm given), returning a
confirmation message that carries neither a count of cleared algorithms nor
an indication that no state existed; with a specific algorithm selector it
fails with a 404 not-found error. -/
theorem claim_reset_endpoint_missing_state (identifier : String) (alg : Algorithm) :
    reset_rate_limit identifier none ({ tb := none, sw := [] } : AppState) =
      Except.ok (⟨"Rate limit reset for " ++ identifier⟩,
        ({ tb := none, sw := [] } : AppState)) ∧
    reset_rate_limit identifier (some alg) ({ tb := none, sw := [] } : AppState) =
      Except.error 404 := by
  cases alg <;> exact ⟨rfl, rfl⟩

/-- One sliding-window `check` keeps the stored set within the size bound:
an entry is inserted only when the post-prune count is strictly below the
limit. -/
theorem sw_check_length_le (L w : ℕ) (t : ℤ) (st : SWState)
    (h : st.length ≤ L) :
    ((SlidingWindowLimiter.check L w t st).2).length ≤ L := by
  have h1 : (swPrune (t - (w : ℤ) * 1000) st).length ≤ st.length :=
    List.length_filter_le _ _
  by_cases hc :
      ((swPrune (t - (w : ℤ) * 1000) st).length : ℤ) < (L : ℤ)
  · have hlt : (swPrune (t - (w : ℤ) * 1000) st).length < L := by exact_mod_cast hc
    simp only [SlidingWindowLimiter.check, slidingWindowScript, if_pos hc,
      List.length_append, List.length_cons, List.length_nil]
    omega
  · simp only [SlidingWindowLimiter.check, slidingWindowScript, if_neg hc]
    omega

/-- C1: for every identifier and every sequence of sliding-window `check`
calls with limit `L ≥ 1` (windows and timestamps arbitrary per call),
starting from a fresh key, the stored collection contains at most `L`
entries after each call — stated for every call sequence, hence for every
prefix of a longer sequence. -/
theorem claim_sliding_window_size_bound (L : ℕ) (hL : 1 ≤ L)
    (calls : List (ℕ × ℤ)) :
    (swRunChecks L calls []).length ≤ L := by
  have main : ∀ (cs : List (ℕ × ℤ)) (st : SWState), st.length ≤ L →
      (swRunChecks L cs st).length ≤ L := by
    intro cs
    induction cs with
    | nil => intro st h; exact h
    | cons c rest ih =>
      intro st h
      exact ih _ (sw_check_length_le L c.1 c.2 st h)
  exact main calls [] (by simp)

/-- Witness for C1 at `L = 2` and a three-call burst at one millisecond. -/
theorem claim_sliding_window_size_bound_witness :
    1 ≤ 2 ∧ (swRunChecks 2 [(60, 1000), (60, 1000), (60, 1000)] []).length ≤ 2 :=
  ⟨by decide, claim_sliding_window_size_bound 2 (by decide)
    [(60, 1000), (60, 1000), (60, 1000)]⟩

/-- Bounds on the tokens value written back by the token-bucket script: with
a non-negative capacity and refill rate, a non-negative stored tokens value
and a call time at or after the stored `last_refill`, the written tokens stay
in `[0, capacity]`. -/
theorem tokenBucketScript_tokens_bounds (C r now : ℚ) (st : Option TBState)
    (hC : 0 ≤ C) (hr : 0 ≤ r)
    (hst : st = none ∨ ∃ s : TBState, st = some s ∧ 0 ≤ s.tokens ∧ s.lastRefill ≤ now) :
    0 ≤ (tokenBucketScript C r now st).2.tokens ∧
      (tokenBucketScript C r now st).2.tokens ≤ C := by
  obtain rfl | ⟨s, rfl, hs0, hsle⟩ := hst
  · have hmin0 : (0 : ℚ) ≤ min C (C + (now - now) * r) := by
      simp [hC]
    have hminC : min C (C + (now - now) * r) ≤ C := min_le_left _ _
    by_cases h1 : (1 : ℚ) ≤ min C (C + (now - now) * r)
    · simp only [tokenBucketScript, decide_eq_true (by exact h1), if_true]
      constructor
      · linarith
      · linarith
    · simp only [tokenBucketScript, decide_eq_false (by exact h1),
        Bool.false_eq_true, if_false]
      exact ⟨hmin0, hminC⟩
  · have hadd : (0 : ℚ) ≤ s.tokens + (now - s.lastRefill) * r :=
      add_nonneg hs0 (mul_nonneg (by linarith) hr)
    have hmin0 : (0 : ℚ) ≤ min C (s.tokens + (now - s.lastRefill) * r) :=
      le_min hC hadd
    have hminC : min C (s.tokens + (now - s.lastRefill) * r) ≤ C := min_le_left _ _
    by_cases h1 : (1 : ℚ) ≤ min C (s.tokens + (now - s.lastRefill) * r)
    · simp only [tokenBucketScript, decide_eq_true (by exact h1), if_true]
      constructor
      · linarith
      · linarith
    · simp only [tokenBucketScript, decide_eq_false (by exact h1),
        Bool.false_eq_true, if_false]
      exact ⟨hmin0, hminC⟩

/-- C2: for every token-bucket `check` call with capacity `C ≥ 1` and window
`W ≥ 1`, assuming the call timestamp is not earlier than the stored
`last_refill` and the stored tokens value is non-negative (as every write
establishes), the persisted tokens value stays within `[0, C]`: a never-seen
key is seeded at `C`, refill is capped at `C` by the `min`, and tokens is
decremented by exactly 1 only when at least one token is available. -/
theorem claim_token_bucket_tokens_range (L W : ℕ) (hL : 1 ≤ L) (hW : 1 ≤ W)
    (now : ℚ) (st : Option TBState)
    (hst : st = none ∨ ∃ s : TBState, st = some s ∧ 0 ≤ s.tokens ∧ s.lastRefill ≤ now) :
    ∃ s2 : TBState, (TokenBucketLimiter.check L W now st).2 = some s2 ∧
      0 ≤ s2.tokens ∧ s2.tokens ≤ (L : ℚ) := by
  refine ⟨(tokenBucketScript (L : ℚ) ((L : ℚ) / (W : ℚ)) now st).2, rfl, ?_⟩
  exact tokenBucketScript_tokens_bounds (L : ℚ) ((L : ℚ) / (W : ℚ)) now st
    (by positivity) (by positivity) hst

/-- Witness for C2 at `L = 5`, `W = 60`, stored state `tokens = 1/2` at
`last_refill = 100`, call time `130`. -/
theorem claim_token_bucket_tokens_range_witness :
    1 ≤ 5 ∧ 1 ≤ 60 ∧
    (some (⟨1/2, 100⟩ : TBState) = none ∨
      ∃ s : TBState, some (⟨1/2, 100⟩ : TBState) = some s ∧
        0 ≤ s.tokens ∧ s.lastRefill ≤ (130 : ℚ)) ∧
    ∃ s2 : TBState,
      (TokenBucketLimiter.check 5 60 130 (some ⟨1/2, 100⟩)).2 = some s2 ∧
        0 ≤ s2.tokens ∧ s2.tokens ≤ ((5 : ℕ) : ℚ) :=
  ⟨by decide, by decide, Or.inr ⟨⟨1/2, 100⟩, rfl, by norm_num, by norm_num⟩,
   claim_token_bucket_tokens_range 5 60 (by decide) (by decide) 130
     (some ⟨1/2, 100⟩) (Or.inr ⟨⟨1/2, 100⟩, rfl, by norm_num, by norm_num⟩)⟩

/-- C9: for every denied token-bucket `check` with capacity `C ≥ 1` and
window `W ≥ 1`, the returned `retry_after` is at most the returned
`reset_in_seconds`: both are derived from the same post-refill tokens value
as `(1 - tokens)/refill_rate` and `(C - tokens)/refill_rate`. -/
theorem claim_token_bucket_retry_le_reset (L W : ℕ) (hL : 1 ≤ L) (hW : 1 ≤ W)
    (now : ℚ) (st : Option TBState)
    (hdenied : (TokenBucketLimiter.check L W now st).1.allowed = false) :
    ∃ q : ℚ, (TokenBucketLimiter.check L W now st).1.retryAfter = some q ∧
      q ≤ (TokenBucketLimiter.check L W now st).1.resetInSeconds := by
  have hLpos : (0 : ℚ) < (L : ℚ) := by exact_mod_cast hL
  have hWpos : (0 : ℚ) < (W : ℚ) := by exact_mod_cast hW
  have hr : 0 < (L : ℚ) / (W : ℚ) := div_pos hLpos hWpos
  have hC : (1 : ℚ) ≤ (L : ℚ) := by exact_mod_cast hL
  have key : ∀ t0 l0 : ℚ,
      ¬ ((1 : ℚ) ≤ min (L : ℚ) (t0 + (now - l0) * ((L : ℚ) / (W : ℚ)))) →
      ∃ q : ℚ,
        (TokenBucketLimiter.check L W now (some ⟨t0, l0⟩)).1.retryAfter = some q ∧
        q ≤ (TokenBucketLimiter.check L W now (some ⟨t0, l0⟩)).1.resetInSeconds := by
    intro t0 l0 h1
    have ht1C : min (L : ℚ) (t0 + (now - l0) * ((L : ℚ) / (W : ℚ))) ≤ (L : ℚ) :=
      min_le_left _ _
    have hpos : 0 < (L : ℚ) - min (L : ℚ) (t0 + (now - l0) * ((L : ℚ) / (W : ℚ))) := by
      have := not_le.mp h1
      linarith
    refine ⟨fmt3 ((1 - min (L : ℚ) (t0 + (now - l0) * ((L : ℚ) / (W : ℚ)))) /
      ((L : ℚ) / (W : ℚ))), ?_, ?_⟩
    · simp [TokenBucketLimiter.check, tokenBucketScript, h1, hr]
    · simp only [TokenBucketLimiter.check, tokenBucketScript,
        decide_eq_false (by exact h1), Bool.false_eq_true, if_false]
      rw [if_pos ⟨hpos, hr⟩]
      apply fmt3_mono
      rw [div_le_div_iff₀ hr hr]
      nlinarith [mul_nonneg (sub_nonneg.mpr hC) hr.le]
  cases st with
  | none =>
    rw [tb_fresh_allowed L W hL now] at hdenied
    exact absurd hdenied (by simp)
  | some s =>
    apply key s.tokens s.lastRefill
    intro hcon
    have : (TokenBucketLimiter.check L W now (some s)).1.allowed = true := by
      simp [TokenBucketLimiter.check, tokenBucketScript, hcon]
    rw [hdenied] at this
    exact Bool.false_ne_true this

/-- Witness for C9: `L = 1`, `W = 1`, bucket already empty at the call time. -/
theorem claim_token_bucket_retry_le_reset_witness :
    1 ≤ 1 ∧ 1 ≤ 1 ∧
    (TokenBucketLimiter.check 1 1 0 (some ⟨0, 0⟩)).1.allowed = false ∧
    ∃ q : ℚ, (TokenBucketLimiter.check 1 1 0 (some ⟨0, 0⟩)).1.retryAfter = some q ∧
      q ≤ (TokenBucketLimiter.check 1 1 0 (some ⟨0, 0⟩)).1.resetInSeconds :=
  ⟨by decide, by decide,
   by simp [TokenBucketLimiter.check, tokenBucketScript],
   claim_token_bucket_retry_le_reset 1 1 (by decide) (by decide) 0
     (some ⟨0, 0⟩) (by simp [TokenBucketLimiter.check, tokenBucketScript])⟩

/-- Retry value reported by a denied `check` on a bucket whose `last_refill`
is the call time. -/
theorem tb_step_retry (L W : ℕ) (now t : ℚ) (ht : t ≤ (L : ℚ))
    (hlt : ¬ (1 : ℚ) ≤ t) (hr : 0 < (L : ℚ) / (W : ℚ)) :
    (TokenBucketLimiter.check L W now (some ⟨t, now⟩)).1.retryAfter =
      some (fmt3 ((1 - t) / ((L : ℚ) / (W : ℚ)))) := by
  simp [TokenBucketLimiter.check, tokenBucketScript, min_eq_right, ht, hlt, hr]

/-- After `1 ≤ j ≤ L` same-timestamp `check` calls on a fresh key the stored
bucket holds exactly `L - j` tokens, refilled at the call time. -/
theorem tbStateAfter_eq (L W : ℕ) (hL : 1 ≤ L) (now : ℚ) :
    ∀ j : ℕ, 1 ≤ j → j ≤ L →
      tbStateAfter L W now j = some ⟨(L : ℚ) - (j : ℚ), now⟩ := by
  intro j
  induction j with
  | zero => intro h; exact absurd h (by decide)
  | succ i ih =>
    intro _ hsucc
    rcases Nat.eq_zero_or_pos i with rfl | hi
    · show (TokenBucketLimiter.check L W now (tbStateAfter L W now 0)).2 = _
      rw [show tbStateAfter L W now 0 = none from rfl, tb_check_none_eq,
        tb_step_state L W now _ le_rfl]
      have h1 : (1 : ℚ) ≤ (L : ℚ) := by exact_mod_cast hL
      rw [if_pos h1]
      norm_num
    · have hiL : i ≤ L := le_trans (Nat.le_succ i) hsucc
      show (TokenBucketLimiter.check L W now (tbStateAfter L W now i)).2 = _
      rw [ih hi hiL]
      have hipos : (0 : ℚ) ≤ (i : ℚ) := by positivity
      rw [tb_step_state L W now _ (by linarith)]
      have hcond : (1 : ℚ) ≤ (L : ℚ) - (i : ℚ) := by
        have : ((i : ℚ) + 1) ≤ (L : ℚ) := by exact_mod_cast hsucc
        linarith
      rw [if_pos hcond]
      simp only [Option.some.injEq, TBState.mk.injEq]
      refine ⟨by push_cast; ring, trivial⟩

/-- The `(j+1)`-th same-timestamp `check` on a fresh key behaves as a `check`
on a bucket holding exactly `L - j` tokens refilled at the call time. -/
theorem tb_check_after (L W : ℕ) (hL : 1 ≤ L) (now : ℚ) (j : ℕ) (hj : j ≤ L) :
    TokenBucketLimiter.check L W now (tbStateAfter L W now j) =
      TokenBucketLimiter.check L W now (some ⟨(L : ℚ) - (j : ℚ), now⟩) := by
  rcases Nat.eq_zero_or_pos j with rfl | hj1
  · rw [show tbStateAfter L W now 0 = none from rfl, tb_check_none_eq]
    norm_num
  · rw [tbStateAfter_eq L W hL now j hj1 hj]

/-- C4 counterexample: at capacity `L = 2001`, window `W = 1` (both within
the API's validation bounds), the `(L+1)`-th same-timestamp `check` on a
fresh key is denied with `remaining = 0`, but its returned `retry_after` is
exactly `0`, not positive: the script computes `retry_after = W/L = 1/2001`
and the `"%.3f"` formatting of the return value rounds it to `0.000`, which
the wrapper parses as `0.0` — refuting the claim's `retry_after > 0`
conjunct. -/
theorem claim_token_bucket_burst_counterexample :
    (tbNthResult 2001 1 0 (2001 + 1)).allowed = false ∧
    (tbNthResult 2001 1 0 (2001 + 1)).remaining = 0 ∧
    (tbNthResult 2001 1 0 (2001 + 1)).retryAfter = some 0 := by
  have hL : (1 : ℕ) ≤ 2001 := by norm_num
  have e : tbNthResult 2001 1 0 (2001 + 1) =
      (TokenBucketLimiter.check 2001 1 0 (some ⟨0, 0⟩)).1 := by
    unfold tbNthResult
    rw [show 2001 + 1 - 1 = 2001 from rfl,
        tb_check_after 2001 1 hL 0 2001 le_rfl, sub_self]
  have hcast : (0 : ℚ) ≤ ((2001 : ℕ) : ℚ) := by norm_num
  refine ⟨?_, ?_, ?_⟩
  · rw [e, tb_step_allowed 2001 1 0 0 hcast]
    norm_num
  · rw [e, tb_step_remaining 2001 1 0 0 hcast]
    norm_num
  · rw [e, tb_step_retry 2001 1 0 0 hcast (by norm_num) (by norm_num)]
    have hv : fmt3 ((1 - 0) / (((2001 : ℕ) : ℚ) / ((1 : ℕ) : ℚ))) = 0 := by
      have harg : (1 - 0 : ℚ) / (((2001 : ℕ) : ℚ) / ((1 : ℕ) : ℚ)) = 1 / 2001 := by
        norm_num
      rw [harg]
      unfold fmt3
      have hz : round ((1000 : ℚ) * (1 / 2001)) = 0 := by
        rw [round_eq]
        rw [Int.floor_eq_zero_iff]
        constructor <;> norm_num
      rw [hz]
      norm_num
    rw [hv]

/-- C4 amended: for every capacity `L ≥ 1` and window `W ≥ 1`, starting from
fresh token-bucket state with all calls at one timestamp, the `k`-th `check`
for `1 ≤ k ≤ L` returns `allowed = true` with `remaining = L - k`, and the
`(L+1)`-th `check` returns `allowed = false`, `remaining = 0` and a
non-negative `retry_after` that is positive whenever `L < 2000·W` (the
script's `retry_after = W/L` is always positive, but the `"%.3f"` formatting
of the return value rounds it to `0.000` when `W/L` is below half a
thousandth). -/
theorem claim_token_bucket_burst_amended (L W : ℕ) (hL : 1 ≤ L) (hW : 1 ≤ W)
    (now : ℚ) (k : ℕ) (hk1 : 1 ≤ k) (hkL : k ≤ L) :
    (tbNthResult L W now k).allowed = true ∧
    (tbNthResult L W now k).remaining = (L : ℤ) - (k : ℤ) ∧
    (tbNthResult L W now (L + 1)).allowed = false ∧
    (tbNthResult L W now (L + 1)).remaining = 0 ∧
    ∃ q : ℚ, (tbNthResult L W now (L + 1)).retryAfter = some q ∧ 0 ≤ q ∧
      (L < 2000 * W → 0 < q) := by
  have hLpos : (0 : ℚ) < (L : ℚ) := by exact_mod_cast hL
  have hWpos : (0 : ℚ) < (W : ℚ) := by exact_mod_cast hW
  have hr : 0 < (L : ℚ) / (W : ℚ) := div_pos hLpos hWpos
  have hkj : k - 1 ≤ L := le_trans (Nat.sub_le k 1) hkL
  have hc1 : ((k - 1 : ℕ) : ℚ) = (k : ℚ) - 1 := by
    push_cast [Nat.cast_sub hk1]
    try ring
  have e1 : tbNthResult L W now k =
      (TokenBucketLimiter.check L W now
        (some ⟨(L : ℚ) - ((k - 1 : ℕ) : ℚ), now⟩)).1 := by
    unfold tbNthResult
    rw [tb_check_after L W hL now (k - 1) hkj]
  have hkQ : (k : ℚ) ≤ (L : ℚ) := by exact_mod_cast hkL
  have hk1Q : (1 : ℚ) ≤ (k : ℚ) := by exact_mod_cast hk1
  have htk : (L : ℚ) - ((k - 1 : ℕ) : ℚ) ≤ (L : ℚ) := by
    rw [hc1]; linarith
  have hcondk : (1 : ℚ) ≤ (L : ℚ) - ((k - 1 : ℕ) : ℚ) := by
    rw [hc1]; linarith
  have eL : tbNthResult L W now (L + 1) =
      (TokenBucketLimiter.check L W now (some ⟨(0 : ℚ), now⟩)).1 := by
    unfold tbNthResult
    rw [show L + 1 - 1 = L from rfl, tb_check_after L W hL now L le_rfl, sub_self]
  refine ⟨?_, ?_, ?_, ?_, ?_⟩
  · rw [e1, tb_step_allowed L W now _ htk]
    simpa using hcondk
  · rw [e1, tb_step_remaining L W now _ htk, if_pos hcondk]
    rw [show (L : ℚ) - ((k - 1 : ℕ) : ℚ) - 1 = (((L : ℤ) - (k : ℤ) : ℤ) : ℚ) by
      rw [hc1]; push_cast; ring]
    exact Int.floor_intCast _
  · rw [eL, tb_step_allowed L W now _ (le_of_lt hLpos)]
    norm_num
  · rw [eL, tb_step_remaining L W now _ (le_of_lt hLpos)]
    norm_num
  · refine ⟨fmt3 ((1 - 0) / ((L : ℚ) / (W : ℚ))), ?_, ?_, ?_⟩
    · rw [eL]
      exact tb_step_retry L W now 0 (le_of_lt hLpos) (by norm_num) hr
    · exact fmt3_nonneg (by positivity)
    · intro hLW
      apply fmt3_pos
      have hval : (1 - 0 : ℚ) / ((L : ℚ) / (W : ℚ)) = (W : ℚ) / (L : ℚ) := by
        rw [sub_zero, one_div_div]
      rw [hval, ← mul_div_assoc, le_div_iff₀ hLpos]
      have hLWQ : (L : ℚ) < 2000 * (W : ℚ) := by exact_mod_cast hLW
      linarith

/-- Witness for the amended C4 at `L = 2`, `W = 1`, `k = 1`. -/
theorem claim_token_bucket_burst_amended_witness :
    1 ≤ 2 ∧ 1 ≤ 1 ∧ 1 ≤ 1 ∧ 1 ≤ 2 ∧
    ((tbNthResult 2 1 0 1).allowed = true ∧
     (tbNthResult 2 1 0 1).remaining = (2 : ℤ) - (1 : ℤ) ∧
     (tbNthResult 2 1 0 (2 + 1)).allowed = false ∧
     (tbNthResult 2 1 0 (2 + 1)).remaining = 0 ∧
     ∃ q : ℚ, (tbNthResult 2 1 0 (2 + 1)).retryAfter = some q ∧ 0 ≤ q ∧
       (2 < 2000 * 1 → 0 < q)) :=
  ⟨by decide, by decide, by decide, by decide,
   claim_token_bucket_burst_amended 2 1 (by decide) (by decide) 0 1
     (by decide) (by decide)⟩

/-- Pruning twice at increasing horizons equals pruning once at the later
horizon. -/
theorem swPrune_swPrune (a b : ℤ) (st : SWState) (h : b ≤ a) :
    swPrune a (swPrune b st) = swPrune a st := by
  unfold swPrune
  rw [List.filter_filter]
  apply List.filter_congr
  intro e _
  by_cases hae : a < e
  · simp [hae, lt_of_le_of_lt h hae]
  · simp [hae]

/-- The sliding-window check script reads the stored set only through its
pruned form: states with equal pruned forms yield equal script outcomes. -/
theorem slidingWindowScript_congr (L w t : ℤ) (s1 s2 : SWState)
    (h : swPrune (t - w * 1000) s1 = swPrune (t - w * 1000) s2) :
    slidingWindowScript L w t s1 = slidingWindowScript L w t s2 := by
  simp only [slidingWindowScript, h]

/-- A sliding-window `status` writes back exactly the pruned set. -/
theorem sw_status_state (L W : ℕ) (t : ℤ) (st : SWState) :
    (SlidingWindowLimiter.get_status L W t st).2 =
      swPrune (t - (W : ℤ) * 1000) st := rfl

/-- Pruning at a horizon below every later call's own prune horizon does not
change any later call's behaviour: the first call re-prunes anyway. -/
theorem swRunOps_prune (L W : ℕ) (ws : ℤ) (ops : List SWOp) (st : SWState)
    (h : ∀ o ∈ ops, ws ≤ o.time - (W : ℤ) * 1000) :
    swRunOps L W (swPrune ws st) ops = swRunOps L W st ops := by
  cases ops with
  | nil => rfl
  | cons op rest =>
    have hop : ws ≤ op.time - (W : ℤ) * 1000 := h op (by simp)
    cases op with
    | check t =>
      have hpr : swPrune (t - (W : ℤ) * 1000) (swPrune ws st) =
          swPrune (t - (W : ℤ) * 1000) st :=
        swPrune_swPrune _ ws st (by simpa [SWOp.time] using hop)
      have hkey : SlidingWindowLimiter.check L W t (swPrune ws st) =
          SlidingWindowLimiter.check L W t st := by
        unfold SlidingWindowLimiter.check
        rw [slidingWindowScript_congr (L : ℤ) (W : ℤ) t _ _ hpr]
      simp only [swRunOps, hkey]
    | status t =>
      have hpr : swPrune (t - (W : ℤ) * 1000) (swPrune ws st) =
          swPrune (t - (W : ℤ) * 1000) st :=
        swPrune_swPrune _ ws st (by simpa [SWOp.time] using hop)
      have hkey : (SlidingWindowLimiter.get_status L W t (swPrune ws st)).2 =
          (SlidingWindowLimiter.get_status L W t st).2 := by
        rw [sw_status_state, sw_status_state]
        exact hpr
      simp only [swRunOps, hkey]

/-- Dropping the `status` calls from a time-ordered sliding-window call
sequence leaves the `check` results unchanged. -/
theorem swRunOps_filter (L W : ℕ) (ops : List SWOp)
    (hmono : List.Pairwise (fun a b : SWOp => a.time ≤ b.time) ops) :
    ∀ st : SWState,
      swRunOps L W st ops = swRunOps L W st (ops.filter SWOp.isCheck) := by
  induction ops with
  | nil => intro st; rfl
  | cons op rest ih =>
    have hhead := (List.pairwise_cons.mp hmono).1
    have htail := (List.pairwise_cons.mp hmono).2
    intro st
    cases op with
    | check t =>
      rw [show (SWOp.check t :: rest).filter SWOp.isCheck =
          SWOp.check t :: rest.filter SWOp.isCheck by simp [SWOp.isCheck]]
      simp only [swRunOps]
      rw [ih htail]
    | status t =>
      rw [show (SWOp.status t :: rest).filter SWOp.isCheck =
          rest.filter SWOp.isCheck by simp [SWOp.isCheck]]
      show swRunOps L W (SlidingWindowLimiter.get_status L W t st).2 rest = _
      rw [sw_status_state]
      have hb : ∀ o ∈ rest, t - (W : ℤ) * 1000 ≤ o.time - (W : ℤ) * 1000 := by
        intro o ho
        have := hhead o ho
        simp only [SWOp.time] at this ⊢
        omega
      rw [swRunOps_prune L W _ rest st hb]
      exact ih htail st

/-- Dropping the `status` calls from a token-bucket call sequence leaves the
`check` results unchanged: the token-bucket status script performs no write
at all. -/
theorem tbRunOps_filter (L W : ℕ) (ops : List TBOp) :
    ∀ st : Option TBState,
      tbRunOps L W st ops = tbRunOps L W st (ops.filter TBOp.isCheck) := by
  induction ops with
  | nil => intro st; rfl
  | cons op rest ih =>
    intro st
    cases op with
    | check t =>
      rw [show (TBOp.check t :: rest).filter TBOp.isCheck =
          TBOp.check t :: rest.filter TBOp.isCheck by simp [TBOp.isCheck]]
      simp only [tbRunOps]
      rw [ih]
    | status t =>
      rw [show (TBOp.status t :: rest).filter TBOp.isCheck =
          rest.filter TBOp.isCheck by simp [TBOp.isCheck]]
      show tbRunOps L W (TokenBucketLimiter.get_status L W t st).2 rest = _
      exact ih st

/-- C6: for every starting state and both algorithms, interposed `status`
calls never change the outcome of any subsequent `check` at any later
timestamp: running a time-ordered call sequence yields the same list of
`check` results as running it with all `status` calls removed (for the
token bucket no time-ordering is even needed, as its status script performs
no write). -/
theorem claim_status_read_only (L W : ℕ) (swOps : List SWOp) (swSt : SWState)
    (hmono : List.Pairwise (fun a b : SWOp => a.time ≤ b.time) swOps)
    (tbOps : List TBOp) (tbSt : Option TBState) :
    swRunOps L W swSt swOps = swRunOps L W swSt (swOps.filter SWOp.isCheck) ∧
    tbRunOps L W tbSt tbOps = tbRunOps L W tbSt (tbOps.filter TBOp.isCheck) :=
  ⟨swRunOps_filter L W swOps hmono swSt, tbRunOps_filter L W tbOps tbSt⟩

/-- Witness for C6: a `status` call interposed before a `check` on each
algorithm, with non-empty sliding-window state. -/
theorem claim_status_read_only_witness :
    List.Pairwise (fun a b : SWOp => a.time ≤ b.time)
      [SWOp.status 1500, SWOp.check 2000] ∧
    (swRunOps 1 1 [0] [SWOp.status 1500, SWOp.check 2000] =
       swRunOps 1 1 [0] ([SWOp.status 1500, SWOp.check 2000].filter SWOp.isCheck) ∧
     tbRunOps 1 1 none [TBOp.status 3, TBOp.check 7] =
       tbRunOps 1 1 none ([TBOp.status 3, TBOp.check 7].filter TBOp.isCheck)) :=
  ⟨by simp [SWOp.time],
   claim_status_read_only 1 1 [SWOp.status 1500, SWOp.check 2000] [0]
     (by simp [SWOp.time]) [TBOp.status 3, TBOp.check 7] none⟩

end RateLimiter
